import Mathlib

/-!
Verification of the tool registry and safety gate of
`scripts/plugin-research-agent.py` (PluginRadar research agent).

The Python code is shallowly embedded: JSON values become the inductive
`Value`; Python dicts become association lists `List (String × Value)` with
sequential-insertion semantics (`dictSet`, `pyUpdate` model `d[k] = v` and
`{**a, **b}`); the on-disk record stores become functions
`String → Option PyDict` mapping a slug to the parsed content of
`<slug>.json`; exceptions become `Except`/`Option` values; and the outcome
of each external collaborator (subprocess, network, JSON parse of upstream
text) is an explicit parameter of the embedded function.
-/

set_option autoImplicit false

/-- JSON-like values, the payloads of tool inputs and results. -/
inductive Value where
  | null
  | bool (b : Bool)
  | int (n : Int)
  | str (s : String)
  | list (items : List Value)
  | dict (entries : List (String × Value))

/-- A Python dict with string keys, as an ordered association list.
Lists built by `dictSet` from `[]` have unique keys, like real dicts. -/
abbrev PyDict := List (String × Value)

/-- Python dict lookup `d[k]` / `d.get(k)`: the value at the first
occurrence of `k` (occurrences are unique for lists built by `dictSet`). -/
def dictGet {α : Type} : List (String × α) → String → Option α
  | [], _ => none
  | p :: ps, k => if p.1 = k then some p.2 else dictGet ps k

/-- Python `k in d`. -/
def hasKey {α : Type} (d : List (String × α)) (k : String) : Bool :=
  (dictGet d k).isSome

/-- Python dict assignment `d[k] = v`: replace the value at the existing
key in place, else append the new pair at the end. -/
def dictSet {α : Type} : List (String × α) → String → α → List (String × α)
  | [], k, v => [(k, v)]
  | p :: ps, k, v => if p.1 = k then (k, v) :: ps else p :: dictSet ps k v

/-- Python `{**a, **b}` (and `a.update(b)`): insert the pairs of `b` into
`a` in order, the later binding winning on a key collision. -/
def pyUpdate {α : Type} (a b : List (String × α)) : List (String × α) :=
  b.foldl (fun acc p => dictSet acc p.1 p.2) a

/-- First-`some` choice, the value-level merge rule of `pyUpdate`. -/
def orElseO {α : Type} : Option α → Option α → Option α
  | some v, _ => some v
  | none, o => o

/-- Whether `pre` is a prefix of the second list (character lists). -/
def isPrefixList : List Char → List Char → Bool
  | [], _ => true
  | _ :: _, [] => false
  | a :: as, b :: bs => a = b && isPrefixList as bs

/-- Whether `needle` occurs as a contiguous sublist. -/
def containsSub (needle : List Char) : List Char → Bool
  | [] => needle.isEmpty
  | c :: cs => isPrefixList needle (c :: cs) || containsSub needle cs

/-- Python substring test `needle in hay` on strings. -/
def pyIn (needle hay : String) : Bool :=
  containsSub needle.data hay.data

/-- Python `d.get(k, "")` on a tool-input dict whose schema-validated
values at `k` are strings; a non-string value yields `""`. -/
def pyGetStr (d : List (String × Value)) (k : String) : String :=
  match dictGet d k with
  | some (Value.str s) => s
  | _ => ""

theorem dictGet_dictSet_self {α : Type} (d : List (String × α)) (k : String) (v : α) :
    dictGet (dictSet d k v) k = some v := by
  induction d with
  | nil => simp [dictSet, dictGet]
  | cons p ps ih =>
    by_cases h : p.1 = k
    · simp [dictSet, dictGet, h]
    · simp [dictSet, dictGet, h, ih]

theorem dictGet_dictSet_ne {α : Type} (d : List (String × α)) (k j : String) (v : α)
    (h : j ≠ k) : dictGet (dictSet d j v) k = dictGet d k := by
  induction d with
  | nil => simp [dictSet, dictGet, h]
  | cons p ps ih =>
    by_cases hp : p.1 = j
    · simp [dictSet, dictGet, hp, h]
    · simp only [dictSet, if_neg hp, dictGet]
      by_cases hk : p.1 = k
      · simp [hk]
      · simp [hk, ih]

theorem dictGet_eq_none_of_not_mem {α : Type} (b : List (String × α)) (k : String)
    (h : k ∉ b.map Prod.fst) : dictGet b k = none := by
  induction b with
  | nil => rfl
  | cons p ps ih =>
    simp only [List.map_cons, List.mem_cons] at h
    push_neg at h
    obtain ⟨h1, h2⟩ := h
    have hne : ¬ p.1 = k := fun hpk => h1 hpk.symm
    simp only [dictGet, if_neg hne]
    exact ih h2

theorem dictGet_pyUpdate {α : Type} (b : List (String × α)) (a : List (String × α))
    (k : String) (hb : (b.map Prod.fst).Nodup) :
    dictGet (pyUpdate a b) k = orElseO (dictGet b k) (dictGet a k) := by
  induction b generalizing a with
  | nil => simp [pyUpdate, dictGet, orElseO]
  | cons p bs ih =>
    simp only [List.map_cons, List.nodup_cons] at hb
    have step : pyUpdate a (p :: bs) = pyUpdate (dictSet a p.1 p.2) bs := rfl
    rw [step, ih (dictSet a p.1 p.2) hb.2]
    by_cases hk : p.1 = k
    · subst hk
      rw [dictGet_eq_none_of_not_mem bs p.1 hb.1]
      simp [dictGet, orElseO, dictGet_dictSet_self]
    · simp only [dictGet, if_neg hk]
      cases hbs : dictGet bs k with
      | some v => simp [orElseO]
      | none => simp [orElseO, dictGet_dictSet_ne a k p.1 p.2 hk]

/-- Project root directory, `Path(__file__).parent.parent`
(environment-dependent; a fixed representative absolute path). -/
def PROJECT_ROOT : String := "/plugin-radar-monorepo"

/-- `PROJECT_ROOT / "data"`. -/
def DATA_DIR : String := PROJECT_ROOT ++ "/data"

/-- `DATA_DIR / "comparisons"`. -/
def COMPARISONS_DIR : String := DATA_DIR ++ "/comparisons"

/-- `DATA_DIR / "enrichment"`. -/
def ENRICHMENT_DIR : String := DATA_DIR ++ "/enrichment"

/-- Resolution of a tool path argument: absolute paths kept, relative
paths resolved against the project root (`PROJECT_ROOT / path`). -/
def resolvePath (p : String) : String :=
  if p.startsWith "/" then p else PROJECT_ROOT ++ "/" ++ p

/-- `Path.parent`: the path with its last component removed. -/
def parentDir (p : String) : String :=
  String.intercalate "/" (p.splitOn "/").dropLast

/-- Observable side effects of a tool invocation on the host. -/
inductive Effect where
  | spawned (argv : List String)
  | fsRead (path : String)
  | fsWrite (path : String)
  | fsMkdir (path : String)

/-- Outcome of one `subprocess.run` call with `capture_output=True`:
either the process finished (with its captured streams and return code)
or the per-call timeout expired and `TimeoutExpired` was raised. -/
inductive ProcOutcome where
  | completed (stdout : String) (stderr : String) (rc : Int)
  | timedOut

/-- Outcome of the `subprocess.run` call inside `execute_bash`:
completion, `TimeoutExpired`, or any other exception (message `msg`). -/
inductive BashOutcome where
  | completed (stdout : String) (stderr : String) (rc : Int)
  | timedOut
  | raised (msg : String)

/-- `execute_bash(command, timeout)` given the subprocess outcome:
on completion, `{success: rc == 0, stdout, stderr, exit_code}`;
on `TimeoutExpired` or any other exception, `{success: False, error}`. -/
def execute_bash (command : String) (timeout : Nat) (oc : BashOutcome) :
    List (String × Value) :=
  match oc with
  | BashOutcome.completed out err rc =>
    [("success", Value.bool (decide (rc = 0))), ("stdout", Value.str out),
     ("stderr", Value.str err), ("exit_code", Value.int rc)]
  | BashOutcome.timedOut =>
    [("success", Value.bool false),
     ("error", Value.str ("Command timed out after " ++ toString timeout ++ "s"))]
  | BashOutcome.raised msg =>
    [("success", Value.bool false), ("error", Value.str msg)]

/-- The natural behaviour of the shell command run by `execute_bash`:
how long it takes to finish, and its streams and return code if allowed
to finish. -/
structure BashWorld where
  duration : Nat
  stdout : String
  stderr : String
  exitCode : Int

/-- Modelled from the spec: wall-clock timing of `subprocess.run(...,
timeout=timeout)`, which is not part of this repository's code. Per the
spec's timeout contract ("must time out and report failure rather than
hang"; "a call that exceeds its timeout is treated as a failed result"),
a command that has not finished within `timeout` seconds is killed and
`TimeoutExpired` is raised at time `timeout`; otherwise `subprocess.run`
returns at the command's natural completion time. Time is modelled
discretely as seconds elapsed inside the call. -/
def subprocessRunBash (w : BashWorld) (timeout : Nat) : BashOutcome × Nat :=
  if w.duration ≤ timeout then
    (BashOutcome.completed w.stdout w.stderr w.exitCode, w.duration)
  else
    (BashOutcome.timedOut, timeout)

/-- `execute_bash` together with the time at which it returns. -/
def execute_bash_timed (command : String) (timeout : Nat) (w : BashWorld) :
    List (String × Value) × Nat :=
  ((execute_bash command timeout (subprocessRunBash w timeout).1),
   (subprocessRunBash w timeout).2)

/-- `read_file(path)` over a filesystem `fs` mapping an (absolute,
resolved) path to its text when the file exists. Returns the result dict
and the filesystem effects performed. -/
def read_file (path : String) (fs : String → Option String) :
    List (String × Value) × List Effect :=
  match fs (resolvePath path) with
  | none =>
    ([("success", Value.bool false),
      ("error", Value.str ("File not found: " ++ path))], [])
  | some content =>
    ([("success", Value.bool true), ("path", Value.str (resolvePath path)),
      ("content", Value.str content), ("size", Value.int content.length)],
     [Effect.fsRead (resolvePath path)])

/-- `write_file(path, content)`. `werr = some msg` means `write_text`
raised with message `msg` (after the `mkdir` of the parent directory);
`werr = none` means the write succeeded. -/
def write_file (path : String) (content : String) (werr : Option String) :
    List (String × Value) × List Effect :=
  match werr with
  | some msg =>
    ([("success", Value.bool false), ("error", Value.str msg),
      ("path", Value.str path)],
     [Effect.fsMkdir (parentDir (resolvePath path))])
  | none =>
    ([("success", Value.bool true), ("path", Value.str (resolvePath path)),
      ("size", Value.int content.length)],
     [Effect.fsMkdir (parentDir (resolvePath path)),
      Effect.fsWrite (resolvePath path)])

/-- A record store directory: parsed JSON content of `<slug>.json` per
slug, `none` when no such file exists. -/
abbrev Store := String → Option PyDict

/-- Result of `save_enrichment`: the updated enrichment store and the
returned dict. -/
structure EnrichResult where
  store : Store
  result : PyDict

/-- `ENRICHMENT_DIR / f"{plugin_slug}.json"`. -/
def enrichmentPath (plugin_slug : String) : String :=
  ENRICHMENT_DIR ++ "/" ++ plugin_slug ++ ".json"

/-- `save_enrichment(plugin_slug, data)` at timestamp `now`
(`datetime.now().isoformat()`): load the existing record for the slug if
any, shallow-merge the new fields over it (`{**existing, **data,
"updated_at": now}`), and write the merge back. `werr = some msg` means
some step raised with message `msg`, leaving the store unchanged and
returning the normalized error dict. -/
def save_enrichment (store : Store) (plugin_slug : String) (data : PyDict)
    (now : String) (werr : Option String) : EnrichResult :=
  match werr with
  | some msg =>
    ⟨store,
     [("success", Value.bool false), ("error", Value.str msg),
      ("plugin_slug", Value.str plugin_slug)]⟩
  | none =>
    let existing := (store plugin_slug).getD []
    let merged := dictSet (pyUpdate existing data) "updated_at" (Value.str now)
    ⟨fun s => if s = plugin_slug then some merged else store s,
     [("success", Value.bool true),
      ("path", Value.str (enrichmentPath plugin_slug)),
      ("plugin_slug", Value.str plugin_slug)]⟩

/-- Result of `save_comparison`: the updated comparison store, the
caller's `comparison_data` dict after the call (the function assigns
`comparison_data["generated_at"]` in place before writing), and the
returned dict. -/
structure CompResult where
  store : Store
  callerData : PyDict
  result : PyDict

/-- `COMPARISONS_DIR / f"{slug}.json"`. -/
def comparisonPath (slug : String) : String :=
  COMPARISONS_DIR ++ "/" ++ slug ++ ".json"

/-- `save_comparison(slug, comparison_data)` at timestamp `now`: set
`comparison_data["generated_at"] = now` in place, then overwrite
`<slug>.json` with `comparison_data` (no merge with prior content).
`werr = some msg` means `json.dumps` or `write_text` raised with message
`msg` — after the in-place mutation — leaving the store unchanged. -/
def save_comparison (store : Store) (slug : String) (comparison_data : PyDict)
    (now : String) (werr : Option String) : CompResult :=
  let mutated := dictSet comparison_data "generated_at" (Value.str now)
  match werr with
  | some msg =>
    ⟨store, mutated,
     [("success", Value.bool false), ("error", Value.str msg),
      ("slug", Value.str slug)]⟩
  | none =>
    ⟨fun s => if s = slug then some mutated else store s, mutated,
     [("success", Value.bool true), ("path", Value.str (comparisonPath slug)),
      ("slug", Value.str slug)]⟩

/-- Python `v.get(k, dflt)`: on a dict, the stored value or the default;
on any non-dict value, `AttributeError` is raised. -/
def pyGetDefault (v : Value) (k : String) (dflt : Value) : Except String Value :=
  match v with
  | Value.dict es => Except.ok ((dictGet es k).getD dflt)
  | _ => Except.error "AttributeError"

/-- Python iteration `for r in v`: a list yields its items, a dict its
keys; iterating any other value raises `TypeError` (string iteration,
unreachable from the code paths embedded here, is folded into the error
case). -/
def pyIterate : Value → Except String (List Value)
  | Value.list vs => Except.ok vs
  | Value.dict es => Except.ok (es.map (fun p => Value.str p.1))
  | _ => Except.error "TypeError"

/-- One entry of the Brave fallback mapping in `web_search`:
`{"title": r.get("title"), "url": r.get("url"), "snippet": r.get("description")}`. -/
def braveItem (r : Value) : Except String Value :=
  match pyGetDefault r "title" Value.null with
  | Except.error e => Except.error e
  | Except.ok t =>
    match pyGetDefault r "url" Value.null with
    | Except.error e => Except.error e
    | Except.ok u =>
      match pyGetDefault r "description" Value.null with
      | Except.error e => Except.error e
      | Except.ok s =>
        Except.ok (Value.dict [("title", t), ("url", u), ("snippet", s)])

/-- The external world one `web_search` call runs against: the outcome of
the `openclaw` subprocess, the `BRAVE_API_KEY` environment variable
(`none` when unset), the outcome of the fallback `curl` subprocess, and
the `json.loads` results of the two captured stdouts (`none` meaning the
text is not valid JSON and the parse raises). -/
structure SearchWorld where
  openclaw : ProcOutcome
  parseStdout : Option Value
  braveKey : Option String
  curl : ProcOutcome
  parseCurl : Option Value

/-- The `{"success": False, "error": "Search failed", "query": query}`
fall-through result of `web_search`. -/
def searchFailedResult (query : String) : List (String × Value) :=
  [("success", Value.bool false), ("error", Value.str "Search failed"),
   ("query", Value.str query)]

/-- The body of `web_search` inside its `try:` block; `Except.error`
is an exception escaping to the enclosing handler. -/
def webSearchBody (query : String) (max_results : Int) (w : SearchWorld) :
    Except String (List (String × Value)) :=
  match w.openclaw with
  | ProcOutcome.timedOut => Except.error "Command timed out after 30 seconds"
  | ProcOutcome.completed out _ rc =>
    if rc = 0 then
      if out = "" then
        Except.ok [("success", Value.bool true), ("query", Value.str query),
                   ("results", Value.list [])]
      else
        match w.parseStdout with
        | none => Except.error "JSONDecodeError"
        | some v =>
          Except.ok [("success", Value.bool true), ("query", Value.str query),
                     ("results", v)]
    else
      match w.braveKey with
      | none => Except.ok (searchFailedResult query)
      | some key =>
        if key = "" then Except.ok (searchFailedResult query)
        else
          match w.curl with
          | ProcOutcome.timedOut => Except.error "Command timed out after 30 seconds"
          | ProcOutcome.completed _ _ crc =>
            if crc = 0 then
              match w.parseCurl with
              | none => Except.error "JSONDecodeError"
              | some data =>
                match pyGetDefault data "web" (Value.dict []) with
                | Except.error e => Except.error e
                | Except.ok web =>
                  match pyGetDefault web "results" (Value.list []) with
                  | Except.error e => Except.error e
                  | Except.ok results =>
                    match pyIterate results with
                    | Except.error e => Except.error e
                    | Except.ok items =>
                      match items.mapM braveItem with
                      | Except.error e => Except.error e
                      | Except.ok mapped =>
                        Except.ok [("success", Value.bool true),
                                   ("query", Value.str query),
                                   ("results", Value.list mapped)]
            else Except.ok (searchFailedResult query)

/-- `web_search(query, max_results)`: the `try:` body, with any exception
normalized by the handler to `{"success": False, "error": str(e),
"query": query}`. -/
def web_search (query : String) (max_results : Int) (w : SearchWorld) :
    List (String × Value) :=
  match webSearchBody query max_results w with
  | Except.ok r => r
  | Except.error e =>
    [("success", Value.bool false), ("error", Value.str e),
     ("query", Value.str query)]

/-- The Brave API URL built by the fallback branch of `web_search`. -/
def braveSearchUrl (query : String) (max_results : Int) : String :=
  "https://api.search.brave.com/res/v1/web/search?q=" ++ query ++
    "&count=" ++ toString max_results

/-- The subprocesses `web_search(query, max_results)` spawns: always the
`openclaw` call; additionally the `curl` fallback when `openclaw`
completed with a non-zero return code and `BRAVE_API_KEY` is non-empty. -/
def webSearchEffects (query : String) (max_results : Int) (w : SearchWorld) :
    List Effect :=
  Effect.spawned ["openclaw", "tool", "web_search", "--query", query,
                  "--count", toString max_results] ::
    (match w.openclaw with
     | ProcOutcome.timedOut => []
     | ProcOutcome.completed _ _ rc =>
       if rc = 0 then []
       else
         match w.braveKey with
         | none => []
         | some key =>
           if key = "" then []
           else [Effect.spawned ["curl", "-s", braveSearchUrl query max_results,
                                 "-H", "X-Subscription-Token: " ++ key]])

/-- The external world one `fetch_url` call runs against. `stripped` is
the text of the `curl` stdout after the regex HTML stripping (script and
style blocks removed, tags replaced by spaces, whitespace collapsed),
taken as an oracle: the stripping itself never raises and is not analysed
by any claim. -/
structure FetchWorld where
  openclaw : ProcOutcome
  curl : ProcOutcome
  stripped : String

/-- `fetch_url(url, max_chars)`: `openclaw` first, then the `curl` +
HTML-stripping fallback, any exception normalized to
`{"success": False, "error": str(e), "url": url}`. -/
def fetch_url (url : String) (max_chars : Nat) (w : FetchWorld) :
    List (String × Value) :=
  match w.openclaw with
  | ProcOutcome.timedOut =>
    [("success", Value.bool false),
     ("error", Value.str "Command timed out after 60 seconds"),
     ("url", Value.str url)]
  | ProcOutcome.completed out _ rc =>
    if rc = 0 then
      [("success", Value.bool true), ("url", Value.str url),
       ("content", Value.str (out.take max_chars))]
    else
      match w.curl with
      | ProcOutcome.timedOut =>
        [("success", Value.bool false),
         ("error", Value.str "Command timed out after 35 seconds"),
         ("url", Value.str url)]
      | ProcOutcome.completed _ _ crc =>
        if crc = 0 then
          [("success", Value.bool true), ("url", Value.str url),
           ("content", Value.str (w.stripped.take max_chars))]
        else
          [("success", Value.bool false), ("error", Value.str "Fetch failed"),
           ("url", Value.str url)]

/-- The allow-listed Convex query names (both the keys and the values of
`query_map`, which maps each name to itself). -/
def convexQueries : List String :=
  ["plugins:list", "plugins:get", "plugins:search", "manufacturers:list",
   "comparisons:list"]

/-- The external world one `query_convex` call runs against: the `npx
convex run` subprocess outcome and the `json.loads` result of its stdout. -/
structure ConvexWorld where
  run : ProcOutcome
  parse : Option Value

/-- `query_convex(query_name, args)`: unknown names are refused with a
data result (no subprocess); otherwise the CLI result is normalized —
empty stdout to `data: None`, parse failure or timeout to an error
result, non-zero exit to an error result carrying stderr. -/
def query_convex (query_name : String) (args : Option PyDict) (w : ConvexWorld) :
    List (String × Value) :=
  if convexQueries.contains query_name then
    match w.run with
    | ProcOutcome.timedOut =>
      [("success", Value.bool false),
       ("error", Value.str "Command timed out after 30 seconds"),
       ("query", Value.str query_name)]
    | ProcOutcome.completed out errOut rc =>
      if rc = 0 then
        if out.trim = "" then
          [("success", Value.bool true), ("query", Value.str query_name),
           ("data", Value.null)]
        else
          match w.parse with
          | none =>
            [("success", Value.bool false), ("error", Value.str "JSONDecodeError"),
             ("query", Value.str query_name)]
          | some v =>
            [("success", Value.bool true), ("query", Value.str query_name),
             ("data", v)]
      else
        [("success", Value.bool false), ("error", Value.str errOut),
         ("query", Value.str query_name)]
  else
    [("success", Value.bool false),
     ("error", Value.str ("Unknown query: " ++ query_name))]

/-- The two exception kinds `SafetyHook.execute` can raise. -/
inductive SafetyError where
  | permissionError (msg : String)
  | valueError (msg : String)

/-- The context a pre-invocation hook receives: the tool name and the
tool input dict. -/
structure HookContext where
  tool_name : String
  tool_input : List (String × Value)

/-- The denylist `dangerous` of `SafetyHook`. -/
def dangerousList : List String := ["rm -rf", "mkfs", "> /dev/", "sudo"]

/-- `any(d in command for d in dangerous)`. -/
def flaggedDangerous (command : String) : Bool :=
  dangerousList.any (fun d => pyIn d command)

/-- `SafetyHook.execute(context)`: raise `PermissionError` for an
`execute_bash` whose command contains a denylisted substring, raise
`ValueError` for a `read_file`/`write_file` whose path contains `".."`,
otherwise return the context unchanged. (The Python runs the two checks
in sequence; as `tool_name` is a single string, at most one can fire.) -/
def safetyHookExecute (ctx : HookContext) : Except SafetyError HookContext :=
  if ctx.tool_name = "execute_bash" ∧
      flaggedDangerous (pyGetStr ctx.tool_input "command") = true then
    Except.error (SafetyError.permissionError
      ("Blocked dangerous command: " ++ pyGetStr ctx.tool_input "command"))
  else if (ctx.tool_name = "read_file" ∨ ctx.tool_name = "write_file") ∧
      pyIn ".." (pyGetStr ctx.tool_input "path") = true then
    Except.error (SafetyError.valueError "Directory traversal not allowed")
  else
    Except.ok ctx

/-- A guarded tool invocation: the tool, its inputs, and the external
outcomes its body would run against. -/
inductive ToolCall where
  | executeBash (command : String) (timeout : Nat) (oc : BashOutcome)
  | readFile (path : String) (fs : String → Option String)
  | writeFile (path : String) (content : String) (werr : Option String)

/-- The hook context the agent runtime builds for a `ToolCall`. -/
def contextOf : ToolCall → HookContext
  | ToolCall.executeBash c t _ =>
    ⟨"execute_bash", [("command", Value.str c), ("timeout", Value.int t)]⟩
  | ToolCall.readFile p _ => ⟨"read_file", [("path", Value.str p)]⟩
  | ToolCall.writeFile p c _ =>
    ⟨"write_file", [("path", Value.str p), ("content", Value.str c)]⟩

/-- The tool function bound to a `ToolCall`, with its effects. A
completed or timed-out `execute_bash` spawned `bash -c command`; an
exception from `subprocess.run` itself is modelled as spawning nothing. -/
def runTool : ToolCall → List (String × Value) × List Effect
  | ToolCall.executeBash c t oc =>
    (execute_bash c t oc,
     match oc with
     | BashOutcome.raised _ => []
     | _ => [Effect.spawned ["bash", "-c", c]])
  | ToolCall.readFile p fs => read_file p fs
  | ToolCall.writeFile p c werr => write_file p c werr

/-- Modelled from the spec: the invocation pipeline of the external agent
SDK (`claude_agents`), which is not part of this repository. Per the
spec, pre-invocation hooks run before the tool function and "rejection
must abort the call before any side effect occurs": a `SafetyError`
raised by `SafetyHook.execute` reaches the caller and the tool function
never runs (no effects); otherwise the tool function runs and its result
is returned. -/
def dispatch (call : ToolCall) :
    Except SafetyError (List (String × Value)) × List Effect :=
  match safetyHookExecute (contextOf call) with
  | Except.error e => (Except.error e, [])
  | Except.ok _ => (Except.ok (runTool call).1, (runTool call).2)

/-- One parameter of a tool's declared `input_schema`: its JSON type and
its `default`/`minimum`/`maximum` keywords when declared. -/
structure ParamSpec where
  name : String
  type : String
  dflt : Option Value
  minimum : Option Int
  maximum : Option Int

/-- The `properties` of the `web_search` entry of `TOOLS`: `query` (a
string, no default) and `max_results` (an integer, default 5). Neither
declares a `minimum` or `maximum`; the range 1–10 appears only in the
human-readable `description` text. -/
def webSearchSchemaProps : List ParamSpec :=
  [⟨"query", "string", none, none, none⟩,
   ⟨"max_results", "integer", some (Value.int 5), none, none⟩]

/-- The `required` list of the `web_search` schema. -/
def webSearchRequired : List String := ["query"]

/-- Whether a value fits a JSON-schema `type` keyword. -/
def typeMatches (t : String) (v : Value) : Bool :=
  match t, v with
  | "string", Value.str _ => true
  | "integer", Value.int _ => true
  | "boolean", Value.bool _ => true
  | "object", Value.dict _ => true
  | _, _ => false

/-- Whether one supplied parameter satisfies its declaration: type, and
`minimum`/`maximum` when declared (parameters without a declaration are
unconstrained). -/
def paramOk (props : List ParamSpec) (k : String) (v : Value) : Bool :=
  match props.find? (fun ps => ps.name == k) with
  | none => true
  | some ps =>
    typeMatches ps.type v &&
    (match ps.minimum, v with
     | some lo, Value.int n => decide (lo ≤ n)
     | _, _ => true) &&
    (match ps.maximum, v with
     | some hi, Value.int n => decide (n ≤ hi)
     | _, _ => true)

/-- Modelled from the spec: the SDK-side validation of a tool input
against the tool's declared JSON schema (the schemas are this
repository's data, the validator is the external SDK's). An input is
accepted when every required parameter is present and every supplied
parameter satisfies its declaration. -/
def schemaAccepts (props : List ParamSpec) (required : List String)
    (input : List (String × Value)) : Bool :=
  required.all (fun k => hasKey input k) &&
    input.all (fun p => paramOk props p.1 p.2)

/-- Applying the `web_search` Python signature to a tool-input dict:
`query` is the supplied string, and an omitted `max_results` falls back
to the declared default parameter value 5 (a non-integer `max_results`,
excluded by the schema, is folded into the default case). -/
def webSearchFromInput (input : List (String × Value)) (w : SearchWorld) :
    List (String × Value) :=
  web_search (pyGetStr input "query")
    (match dictGet input "max_results" with
     | some (Value.int n) => n
     | _ => 5) w

/-- One `{tool, success, elapsed}` entry of the logging hook's in-memory
call log. -/
structure LogEntry where
  tool : String
  success : Bool
  elapsed : Int

/-- The mutable state of `PluginRadarLoggingHook`: the `verbose` flag,
the `tool_calls` log and the `start_times` dict. Time is modelled as an
integer clock. -/
structure LogHookState where
  verbose : Bool
  tool_calls : List LogEntry
  start_times : List (String × Int)

/-- The context `PluginRadarLoggingHook.execute` receives. `post = some
(output, success)` is a post-invocation context (one having the
`tool_output` attribute); `post = none` is a pre-invocation context. -/
structure LogContext where
  tool_name : String
  tool_input : List (String × Value)
  post : Option (Option Value × Bool)

/-- `PluginRadarLoggingHook.execute(context)` at clock `now`: a
post-invocation call computes the elapsed time from the recorded start
(defaulting to `now` when absent) and appends a `{tool, success,
elapsed}` entry to `tool_calls`; a pre-invocation call records `now` in
`start_times`. The `print` output is ignored; the context is returned. -/
def loggingHookExecute (st : LogHookState) (ctx : LogContext) (now : Int) :
    LogHookState × LogContext :=
  match ctx.post with
  | some info =>
    let start := (dictGet st.start_times ctx.tool_name).getD now
    ({ st with
        tool_calls := st.tool_calls ++ [⟨ctx.tool_name, info.2, now - start⟩] },
     ctx)
  | none =>
    ({ st with start_times := dictSet st.start_times ctx.tool_name now }, ctx)

/-- The stored enrichment record for `slug` after
`save_enrichment(slug, d1)` then `save_enrichment(slug, d2)` (both
writes succeeding), starting from store `st0`. -/
def enrichTwice (st0 : Store) (slug : String) (d1 d2 : PyDict)
    (t1 t2 : String) : Option PyDict :=
  (save_enrichment (save_enrichment st0 slug d1 t1 none).store
    slug d2 t2 none).store slug

/-- Claim C1: for every slug with no prior enrichment record and data
mappings `d1`, `d2` (dicts, so with distinct keys),
`save_enrichment(slug, d1)` followed by `save_enrichment(slug, d2)`
stores a record whose keys are the union of `d1`'s and `d2`'s plus
`updated_at`; outside `updated_at`, each key holds `d2`'s value when `d2`
has the key and `d1`'s otherwise; `updated_at` holds the timestamp of the
second call. -/
theorem save_enrichment_merge_spec (st0 : Store) (slug : String)
    (d1 d2 : PyDict) (t1 t2 : String) (h0 : st0 slug = none)
    (h1 : (d1.map Prod.fst).Nodup) (h2 : (d2.map Prod.fst).Nodup) :
    (enrichTwice st0 slug d1 d2 t1 t2).isSome = true ∧
    dictGet ((enrichTwice st0 slug d1 d2 t1 t2).getD []) "updated_at" =
      some (Value.str t2) ∧
    (∀ k, k ≠ "updated_at" →
      dictGet ((enrichTwice st0 slug d1 d2 t1 t2).getD []) k =
        orElseO (dictGet d2 k) (dictGet d1 k)) ∧
    (∀ k, hasKey ((enrichTwice st0 slug d1 d2 t1 t2).getD []) k =
      ((k == "updated_at") || hasKey d1 k || hasKey d2 k)) := by
  have hrec : enrichTwice st0 slug d1 d2 t1 t2 =
      some (dictSet (pyUpdate (dictSet (pyUpdate [] d1) "updated_at"
        (Value.str t1)) d2) "updated_at" (Value.str t2)) := by
    simp [enrichTwice, save_enrichment, h0]
  rw [hrec]
  refine ⟨rfl, ?_, ?_, ?_⟩
  · simpa using dictGet_dictSet_self
      (pyUpdate (dictSet (pyUpdate [] d1) "updated_at" (Value.str t1)) d2)
      "updated_at" (Value.str t2)
  · intro k hk
    have hk2 : "updated_at" ≠ k := fun h => hk h.symm
    simp only [Option.getD_some]
    rw [dictGet_dictSet_ne _ k "updated_at" (Value.str t2) hk2,
      dictGet_pyUpdate d2 _ k h2,
      dictGet_dictSet_ne _ k "updated_at" (Value.str t1) hk2,
      dictGet_pyUpdate d1 [] k h1]
    cases dictGet d2 k <;> cases dictGet d1 k <;> simp [orElseO, dictGet]
  · intro k
    by_cases hk : k = "updated_at"
    · subst hk
      simp only [Option.getD_some, hasKey]
      rw [dictGet_dictSet_self]
      simp
    · have hk2 : "updated_at" ≠ k := fun h => hk h.symm
      have hbeq : (k == "updated_at") = false := by
        simpa using hk
      simp only [Option.getD_some, hasKey]
      rw [dictGet_dictSet_ne _ k "updated_at" (Value.str t2) hk2,
        dictGet_pyUpdate d2 _ k h2,
        dictGet_dictSet_ne _ k "updated_at" (Value.str t1) hk2,
        dictGet_pyUpdate d1 [] k h1, hbeq]
      cases dictGet d2 k <;> cases dictGet d1 k <;>
        simp [orElseO, dictGet]

/-- The empty record store (no `<slug>.json` files yet). -/
def store0 : Store := fun _ => none

/-- The first enrichment payload of the spec's worked scenario. -/
def exD1 : PyDict := [("price", Value.int 199)]

/-- The second enrichment payload of the spec's worked scenario. -/
def exD2 : PyDict := [("price", Value.int 149), ("currency", Value.str "USD")]

/-- Witness for C1: the spec's scenario `save_enrichment("foo", {"price":
199})` then `save_enrichment("foo", {"price": 149, "currency": "USD"})`
ends with `updated_at` at the second timestamp and `price` at `d2`'s
value. -/
theorem save_enrichment_merge_spec_witness :
    store0 "foo" = none ∧
    dictGet ((enrichTwice store0 "foo" exD1 exD2 "2025-01-01T00:00:00"
      "2025-01-02T00:00:00").getD []) "updated_at" =
      some (Value.str "2025-01-02T00:00:00") ∧
    dictGet ((enrichTwice store0 "foo" exD1 exD2 "2025-01-01T00:00:00"
      "2025-01-02T00:00:00").getD []) "price" =
      orElseO (dictGet exD2 "price") (dictGet exD1 "price") :=
  ⟨rfl,
   (save_enrichment_merge_spec store0 "foo" exD1 exD2 "2025-01-01T00:00:00"
     "2025-01-02T00:00:00" rfl (by decide) (by decide)).2.1,
   (save_enrichment_merge_spec store0 "foo" exD1 exD2 "2025-01-01T00:00:00"
     "2025-01-02T00:00:00" rfl (by decide) (by decide)).2.2.1 "price"
     (by decide)⟩

/-- Claim C5: for every slug, `save_comparison(slug, d1)` then
`save_comparison(slug, d2)` (both writes succeeding) leaves the stored
comparison record equal to `d2` with `generated_at` set to the second
call's timestamp, whatever `d1` and the prior store held — a full
overwrite, no merge. -/
theorem save_comparison_overwrite (st : Store) (slug : String)
    (d1 d2 : PyDict) (t1 t2 : String) :
    (save_comparison (save_comparison st slug d1 t1 none).store
      slug d2 t2 none).store slug =
      some (dictSet d2 "generated_at" (Value.str t2)) := by
  simp [save_comparison]

/-- Claim C10: `save_comparison` mutates the caller's mapping in place —
after any call, including one whose write fails and which returns
`success: False`, the caller's `comparison_data` dict contains
`generated_at` at the call's timestamp; on a failed write the store is
untouched. -/
theorem save_comparison_mutates_caller :
    (∀ (st : Store) (slug : String) (d : PyDict) (t : String)
        (werr : Option String),
      dictGet (save_comparison st slug d t werr).callerData "generated_at" =
        some (Value.str t)) ∧
    (∀ (st : Store) (slug : String) (d : PyDict) (t m : String),
      dictGet (save_comparison st slug d t (some m)).result "success" =
        some (Value.bool false) ∧
      (save_comparison st slug d t (some m)).store = st) := by
  constructor
  · intro st slug d t werr
    cases werr <;> simp [save_comparison, dictGet_dictSet_self]
  · intro st slug d t m
    exact ⟨rfl, rfl⟩

/-- Claim C2: any `execute_bash` call whose command contains a denylisted
substring is rejected by the safety gate with the distinct
`PermissionError` kind, before the tool function runs — whatever the
subprocess would have done, no subprocess is spawned (no effects). -/
theorem safety_gate_blocks_dangerous_command (c : String) (t : Nat)
    (oc : BashOutcome) (h : flaggedDangerous c = true) :
    dispatch (ToolCall.executeBash c t oc) =
      (Except.error (SafetyError.permissionError
        ("Blocked dangerous command: " ++ c)), []) := by
  simp [dispatch, contextOf, safetyHookExecute, pyGetStr, dictGet, h]

/-- Witness for C2: `execute_bash("sudo rm -rf /tmp/x")` is rejected with
a `PermissionError` and spawns nothing. -/
theorem safety_gate_blocks_dangerous_command_witness :
    flaggedDangerous "sudo rm -rf /tmp/x" = true ∧
    dispatch (ToolCall.executeBash "sudo rm -rf /tmp/x" 30
        (BashOutcome.completed "" "" 0)) =
      (Except.error (SafetyError.permissionError
        ("Blocked dangerous command: " ++ "sudo rm -rf /tmp/x")), []) :=
  ⟨by decide,
   safety_gate_blocks_dangerous_command "sudo rm -rf /tmp/x" 30
     (BashOutcome.completed "" "" 0) (by decide)⟩

/-- Claim C4: any `read_file` or `write_file` call whose path contains
the traversal token `".."` is rejected by the safety gate with a
`ValueError` before the tool function runs: no file is read, no parent
directory is created, no file is written (no effects). -/
theorem traversal_rejected_before_fs (p : String)
    (fs : String → Option String) (c : String) (werr : Option String)
    (h : pyIn ".." p = true) :
    dispatch (ToolCall.readFile p fs) =
      (Except.error (SafetyError.valueError "Directory traversal not allowed"),
       []) ∧
    dispatch (ToolCall.writeFile p c werr) =
      (Except.error (SafetyError.valueError "Directory traversal not allowed"),
       []) := by
  constructor <;>
    simp [dispatch, contextOf, safetyHookExecute, pyGetStr, dictGet, h]

/-- The empty filesystem (no file exists). -/
def emptyFs : String → Option String := fun _ => none

/-- Witness for C4: `read_file("../../etc/passwd")` and
`write_file("../../etc/passwd", "x")` are both rejected with a
`ValueError` and touch nothing. -/
theorem traversal_rejected_before_fs_witness :
    pyIn ".." "../../etc/passwd" = true ∧
    dispatch (ToolCall.readFile "../../etc/passwd" emptyFs) =
      (Except.error (SafetyError.valueError "Directory traversal not allowed"),
       []) :=
  ⟨by decide,
   (traversal_rejected_before_fs "../../etc/passwd" emptyFs "x" none
     (by decide)).1⟩

/-- Claim C6: when the command's natural duration exceeds the timeout,
`execute_bash` returns a `success: False` result (with an error message,
not a raised exception) exactly at the timeout — within timeout plus any
epsilon, and strictly before the command would have completed naturally. -/
theorem execute_bash_timeout_prompt (c : String) (timeout : Nat)
    (w : BashWorld) (h : timeout < w.duration) :
    dictGet (execute_bash_timed c timeout w).1 "success" =
      some (Value.bool false) ∧
    hasKey (execute_bash_timed c timeout w).1 "error" = true ∧
    (execute_bash_timed c timeout w).2 = timeout ∧
    (execute_bash_timed c timeout w).2 < w.duration := by
  have hn : ¬ w.duration ≤ timeout := Nat.not_le.mpr h
  refine ⟨?_, ?_, ?_, ?_⟩ <;>
    simp [execute_bash_timed, subprocessRunBash, execute_bash, dictGet,
      hasKey, hn]
  exact h

/-- Witness for C6: a command that would run 60 seconds under a
30-second timeout fails at second 30. -/
theorem execute_bash_timeout_prompt_witness :
    30 < (BashWorld.mk 60 "" "" 0).duration ∧
    dictGet (execute_bash_timed "sleep 60" 30 (BashWorld.mk 60 "" "" 0)).1
        "success" = some (Value.bool false) ∧
    (execute_bash_timed "sleep 60" 30 (BashWorld.mk 60 "" "" 0)).2 = 30 :=
  ⟨by decide,
   (execute_bash_timeout_prompt "sleep 60" 30 (BashWorld.mk 60 "" "" 0)
     (by decide)).1,
   (execute_bash_timeout_prompt "sleep 60" 30 (BashWorld.mk 60 "" "" 0)
     (by decide)).2.2.1⟩

/-- Counterexample to claim C7 as stated: the result of an
`execute_bash` call that times out does not have the shape
`{success, stdout, stderr, exit_code}` — it has no `stdout` and no
`exit_code` key (it is `{success: False, error}`). -/
theorem execute_bash_shape_counterexample :
    dictGet (execute_bash "sleep 60" 30 BashOutcome.timedOut) "stdout" =
      none ∧
    dictGet (execute_bash "sleep 60" 30 BashOutcome.timedOut) "exit_code" =
      none ∧
    dictGet (execute_bash "sleep 60" 30 BashOutcome.timedOut) "success" =
      some (Value.bool false) :=
  ⟨rfl, rfl, rfl⟩

/-- Claim C7 as amended: a result of `execute_bash` from a command that
ran to completion has exactly the shape `{success, stdout, stderr,
exit_code}` with `success` true exactly when the exit code is 0 — a
non-zero exit becomes a `success: False` data result, not a raised
fault; a timeout or other exception instead yields the data result
`{success: False, error}` without the stream/exit fields. -/
theorem execute_bash_result_shape :
    (∀ (c : String) (t : Nat) (out err : String) (rc : Int),
      execute_bash c t (BashOutcome.completed out err rc) =
        [("success", Value.bool (decide (rc = 0))), ("stdout", Value.str out),
         ("stderr", Value.str err), ("exit_code", Value.int rc)] ∧
      (dictGet (execute_bash c t (BashOutcome.completed out err rc))
          "success" = some (Value.bool true) ↔ rc = 0)) ∧
    (∀ (c : String) (t : Nat),
      execute_bash c t BashOutcome.timedOut =
        [("success", Value.bool false),
         ("error",
          Value.str ("Command timed out after " ++ toString t ++ "s"))]) ∧
    (∀ (c : String) (t : Nat) (m : String),
      execute_bash c t (BashOutcome.raised m) =
        [("success", Value.bool false), ("error", Value.str m)]) := by
  refine ⟨fun c t out err rc => ⟨rfl, ?_⟩, fun c t => rfl, fun c t m => rfl⟩
  simp [execute_bash, dictGet]

/-- Claim C9: the logging hook returns the very context it received, for
every pre- and post-invocation call; only its own state (start times and
the in-memory call log) changes, and even there the configuration flag
is untouched. -/
theorem logging_hook_preserves_context :
    (∀ (st : LogHookState) (ctx : LogContext) (now : Int),
      (loggingHookExecute st ctx now).2 = ctx) ∧
    (∀ (st : LogHookState) (ctx : LogContext) (now : Int),
      (loggingHookExecute st ctx now).1.verbose = st.verbose) := by
  constructor <;> intro st ctx now <;>
    cases h : ctx.post <;> simp [loggingHookExecute, h]

/-- A search world in which the `openclaw` subprocess exits 0 with empty
stdout (the Brave fallback and parses are never reached). -/
def okSearchWorld : SearchWorld :=
  ⟨ProcOutcome.completed "" "" 0, none, none, ProcOutcome.completed "" "" 0,
   none⟩

/-- Counterexample to claim C8 as stated: a `web_search` call with
`max_results = 50` — outside 1–10 — is accepted: it passes the declared
schema, runs normally to a `success: True` result, and passes 50 on to
the spawned search subprocess. Nothing rejects it. -/
theorem max_results_range_counterexample :
    schemaAccepts webSearchSchemaProps webSearchRequired
      [("query", Value.str "eq plugins"), ("max_results", Value.int 50)] =
      true ∧
    web_search "eq plugins" 50 okSearchWorld =
      [("success", Value.bool true), ("query", Value.str "eq plugins"),
       ("results", Value.list [])] ∧
    webSearchEffects "eq plugins" 50 okSearchWorld =
      [Effect.spawned ["openclaw", "tool", "web_search", "--query",
        "eq plugins", "--count", "50"]] :=
  ⟨rfl, rfl, rfl⟩

/-- Claim C8 as amended: `max_results` defaults to 5 when omitted (the
Python signature default, also declared in the schema), but the 1–10
range exists only in the schema's human-readable description: the
declared schema enforces no bound, accepting every integer
`max_results`, which the tool then uses as given. -/
theorem max_results_default_and_unenforced
    (input : List (String × Value)) (w : SearchWorld)
    (h : dictGet input "max_results" = none) :
    webSearchFromInput input w = web_search (pyGetStr input "query") 5 w ∧
    (∀ n : Int,
      schemaAccepts webSearchSchemaProps webSearchRequired
        [("query", Value.str "q"), ("max_results", Value.int n)] = true) ∧
    dictGet [("query", Value.str "q"), ("max_results", Value.int 5)]
      "max_results" = (webSearchSchemaProps.getD 1 ⟨"", "", none, none,
        none⟩).dflt := by
  refine ⟨by simp [webSearchFromInput, h], fun n => ?_, rfl⟩
  simp [schemaAccepts, webSearchRequired, webSearchSchemaProps, hasKey,
    dictGet, paramOk, typeMatches, List.find?]

/-- Witness for C8's amended claim: with `max_results` omitted the call
runs with 5, and `max_results = 99` passes the schema. -/
theorem max_results_default_and_unenforced_witness :
    dictGet [("query", Value.str "reverb")] "max_results" = none ∧
    webSearchFromInput [("query", Value.str "reverb")] okSearchWorld =
      web_search "reverb" 5 okSearchWorld ∧
    schemaAccepts webSearchSchemaProps webSearchRequired
      [("query", Value.str "q"), ("max_results", Value.int 99)] = true :=
  ⟨rfl,
   (max_results_default_and_unenforced [("query", Value.str "reverb")]
     okSearchWorld rfl).1,
   (max_results_default_and_unenforced [("query", Value.str "reverb")]
     okSearchWorld rfl).2.1 99⟩

theorem webSearchShape (q : String) (n : Int) (w : SearchWorld) :
    dictGet (web_search q n w) "query" = some (Value.str q) ∧
    (dictGet (web_search q n w) "success" = some (Value.bool true) ∨
     (dictGet (web_search q n w) "success" = some (Value.bool false) ∧
      hasKey (web_search q n w) "error" = true)) := by
  unfold web_search webSearchBody
  split
  · rename_i r heq
    repeat' split at heq
    all_goals cases heq <;> simp [dictGet, hasKey, searchFailedResult]
  · rename_i e heq
    simp [dictGet, hasKey]

theorem fetchUrlShape (u : String) (m : Nat) (w : FetchWorld) :
    dictGet (fetch_url u m w) "url" = some (Value.str u) ∧
    (dictGet (fetch_url u m w) "success" = some (Value.bool true) ∨
     (dictGet (fetch_url u m w) "success" = some (Value.bool false) ∧
      hasKey (fetch_url u m w) "error" = true)) := by
  unfold fetch_url
  repeat' split
  all_goals simp_all [dictGet, hasKey]

theorem queryConvexShape (qn : String) (args : Option PyDict)
    (w : ConvexWorld) :
    hasKey (query_convex qn args w) "success" = true ∧
    (dictGet (query_convex qn args w) "success" = some (Value.bool true) ∨
     (dictGet (query_convex qn args w) "success" = some (Value.bool false) ∧
      hasKey (query_convex qn args w) "error" = true)) := by
  unfold query_convex
  repeat' split
  all_goals simp_all [dictGet, hasKey]

theorem readFileShape (p : String) (fs : String → Option String) :
    (dictGet (read_file p fs).1 "success" = some (Value.bool true) ∨
     (dictGet (read_file p fs).1 "success" = some (Value.bool false) ∧
      hasKey (read_file p fs).1 "error" = true)) := by
  unfold read_file
  split
  all_goals simp [dictGet, hasKey]

/-- Counterexample to claim C3 as stated: a validation rejection is not
returned as a `{success: False, error}` data result — the safety hook
raises, and the raised `PermissionError` is what reaches the caller of
this invocation. -/
theorem tool_error_policy_counterexample :
    (dispatch (ToolCall.executeBash "sudo reboot" 30
        (BashOutcome.completed "" "" 0))).1 =
      Except.error (SafetyError.permissionError
        ("Blocked dangerous command: " ++ "sudo reboot")) := rfl

/-- Claim C3 as amended: every tool function keeps every failure inside
a data result — `web_search`, `fetch_url` and `query_convex` always
return a dict echoing their identifying field (or carrying `success`)
that either succeeds or has `success: False` with an `error` message;
`execute_bash` always returns a boolean `success`; `read_file` likewise;
a failing `write_file`, `save_enrichment` or `save_comparison` returns
the normalized error dict with its identifying field and leaves the
store unchanged. Validation rejections are the exception: the safety
hook raises `PermissionError`/`ValueError`, aborting the call, instead
of returning a data result. -/
theorem tool_error_policy_amended :
    (∀ (q : String) (n : Int) (w : SearchWorld),
      dictGet (web_search q n w) "query" = some (Value.str q) ∧
      (dictGet (web_search q n w) "success" = some (Value.bool true) ∨
       (dictGet (web_search q n w) "success" = some (Value.bool false) ∧
        hasKey (web_search q n w) "error" = true))) ∧
    (∀ (u : String) (m : Nat) (w : FetchWorld),
      dictGet (fetch_url u m w) "url" = some (Value.str u) ∧
      (dictGet (fetch_url u m w) "success" = some (Value.bool true) ∨
       (dictGet (fetch_url u m w) "success" = some (Value.bool false) ∧
        hasKey (fetch_url u m w) "error" = true))) ∧
    (∀ (qn : String) (args : Option PyDict) (w : ConvexWorld),
      hasKey (query_convex qn args w) "success" = true ∧
      (dictGet (query_convex qn args w) "success" = some (Value.bool true) ∨
       (dictGet (query_convex qn args w) "success" = some (Value.bool false) ∧
        hasKey (query_convex qn args w) "error" = true))) ∧
    (∀ (c : String) (t : Nat) (oc : BashOutcome),
      dictGet (execute_bash c t oc) "success" = some (Value.bool true) ∨
      dictGet (execute_bash c t oc) "success" = some (Value.bool false)) ∧
    (∀ (p : String) (fs : String → Option String),
      dictGet (read_file p fs).1 "success" = some (Value.bool true) ∨
      (dictGet (read_file p fs).1 "success" = some (Value.bool false) ∧
       hasKey (read_file p fs).1 "error" = true)) ∧
    (∀ (p c m : String),
      (write_file p c (some m)).1 =
        [("success", Value.bool false), ("error", Value.str m),
         ("path", Value.str p)]) ∧
    (∀ (st : Store) (sl : String) (d : PyDict) (t m : String),
      (save_enrichment st sl d t (some m)).result =
        [("success", Value.bool false), ("error", Value.str m),
         ("plugin_slug", Value.str sl)] ∧
      (save_enrichment st sl d t (some m)).store = st) ∧
    (∀ (st : Store) (sl : String) (d : PyDict) (t m : String),
      (save_comparison st sl d t (some m)).result =
        [("success", Value.bool false), ("error", Value.str m),
         ("slug", Value.str sl)] ∧
      (save_comparison st sl d t (some m)).store = st) ∧
    (∀ (c : String) (t : Nat) (oc : BashOutcome),
      flaggedDangerous c = true →
      (dispatch (ToolCall.executeBash c t oc)).1 =
        Except.error (SafetyError.permissionError
          ("Blocked dangerous command: " ++ c))) ∧
    (∀ (p : String) (fs : String → Option String),
      pyIn ".." p = true →
      (dispatch (ToolCall.readFile p fs)).1 =
        Except.error (SafetyError.valueError
          "Directory traversal not allowed")) := by
  refine ⟨webSearchShape, fetchUrlShape, queryConvexShape, ?_, readFileShape,
    fun p c m => rfl, fun st sl d t m => ⟨rfl, rfl⟩,
    fun st sl d t m => ⟨rfl, rfl⟩, ?_, ?_⟩
  · intro c t oc
    cases oc <;> simp [execute_bash, dictGet]
    exact em _
  · intro c t oc h
    simp [dispatch, contextOf, safetyHookExecute, pyGetStr, dictGet, h]
  · intro p fs h
    simp [dispatch, contextOf, safetyHookExecute, pyGetStr, dictGet, h]

/-- Witness for C3's amended claim: a timed-out `web_search` comes back
as a `success: False` data result echoing its query, while a denylisted
`execute_bash` surfaces as a raised `PermissionError`. -/
theorem tool_error_policy_amended_witness :
    dictGet (web_search "serum 2" 5
        (SearchWorld.mk ProcOutcome.timedOut none none
          (ProcOutcome.completed "" "" 0) none)) "query" =
      some (Value.str "serum 2") ∧
    flaggedDangerous "sudo make install" = true ∧
    (dispatch (ToolCall.executeBash "sudo make install" 30
        (BashOutcome.completed "" "" 0))).1 =
      Except.error (SafetyError.permissionError
        ("Blocked dangerous command: " ++ "sudo make install")) :=
  ⟨(tool_error_policy_amended.1 "serum 2" 5
      (SearchWorld.mk ProcOutcome.timedOut none none
        (ProcOutcome.completed "" "" 0) none)).1,
   by decide,
   tool_error_policy_amended.2.2.2.2.2.2.2.2.1 "sudo make install" 30
     (BashOutcome.completed "" "" 0) (by decide)⟩
